import Mathlib

/-!
Verification development for the kiwi-app backend
(src/backend/server.py and src/backend/browser_controller.py).

The session registry is two process-wide Python dictionaries:
`browser_controller._sessions` (session id -> live page handle) and
`server.session_timers` (session id -> idle threading.Timer).  Python
dictionaries preserve insertion order, so each dictionary is modelled as the
list of its keys in insertion order; `next(iter(d.keys()))` is the head of
the list, `del d[k]` is `List.erase`, and assignment to an existing key
leaves the key list unchanged.  Page handles and timer objects themselves
carry no information the verified properties depend on beyond membership,
except where an explicit flag models an exception raised by the handle
(for instance `pageCloseRaises`).
-/

namespace Kiwi

/-- server.py line 68: maximum number of concurrent sessions. -/
def MAX_CONCURRENT_SESSIONS : Nat := 4

/-- The combined registry state: keys of `browser_controller._sessions` and of
`server.session_timers`, each in dictionary insertion order. -/
structure St where
  sessions : List String
  timers : List String
  deriving DecidableEq, Repr

/-- `browser_controller.close_session` (lines 163-185), restricted to its
effect on the `_sessions` dictionary.  `pageCloseRaises` models
`page.close()` raising inside the try block: the except branch still deletes
the registry entry ("Still remove from dict even if close failed").  The
function never raises; an unknown id is a logged no-op (line 185). -/
def close_session (sessions : List String) (sid : String)
    (pageCloseRaises : Bool) : List String :=
  if sid ∈ sessions then
    if pageCloseRaises then
      if sid ∈ sessions then sessions.erase sid else sessions
    else
      sessions.erase sid
  else
    sessions

/-- The close path the server performs for a session (cleanup_old_sessions
lines 84-88 and the analogous timeout path): cancel the timer if present,
run `browser_controller.close_session`, then delete the timer entry if
present.  Timer cancellation has no effect on key membership beyond the
deletion, so it is not modelled separately. -/
def closeOp (s : St) (sid : String) (pageCloseRaises : Bool) : St :=
  { sessions := close_session s.sessions sid pageCloseRaises
    timers := if sid ∈ s.timers then s.timers.erase sid else s.timers }

/-- server.cleanup_old_sessions (lines 75-88): only when the timer count
STRICTLY exceeds MAX_CONCURRENT_SESSIONS, the oldest session (first key of
`session_timers`) has its timer cancelled, is closed, and its timer entry is
deleted. -/
def cleanup_old_sessions (s : St) : St :=
  if MAX_CONCURRENT_SESSIONS < s.timers.length then
    match s.timers.head? with
    | some oldest => closeOp s oldest false
    | none => s
  else
    s

/-- server.schedule_session_timeout (lines 90-145), restricted to its effect
on registry keys.  Guard: if the id is not in `_sessions` it returns at
once.  When not resetting, `cleanup_old_sessions` runs first.  An existing
timer entry is either left in place (early return, line 119) or cancelled
and replaced under the same key (lines 121 and 136), so the key list is
unchanged; a missing entry is inserted at the end (line 136). -/
def schedule_session_timeout (s : St) (sid : String)
    (reset_existing : Bool) : St :=
  if sid ∈ s.sessions then
    let s1 := if reset_existing then s else cleanup_old_sessions s
    if sid ∈ s1.timers then s1
    else { s1 with timers := s1.timers ++ [sid] }
  else
    s

/-- Outcomes of the three navigation tiers in
browser_controller.start_session (lines 139-157): whether `page.goto`
succeeds with wait_until domcontentloaded, load, networkidle
respectively. -/
structure NavOutcomes where
  domcontentloaded : Bool
  load : Bool
  networkidle : Bool
  deriving DecidableEq, Repr

/-- The tiered navigation cascade (lines 139-157): try domcontentloaded,
fall back to load, then to networkidle; true iff some tier succeeds. -/
def navigate_tiered (n : NavOutcomes) : Bool :=
  if n.domcontentloaded then true
  else if n.load then true
  else if n.networkidle then true
  else false

/-- browser_controller.start_session (lines 59-161), restricted to its effect
on `_sessions`.  The fresh uuid `sid` is written into `_sessions` only at
line 159, after navigation; if every tier raises, the exception propagates
(line 157) and `_sessions` is unchanged.  Dictionary assignment to an
already-present key leaves the key list unchanged. -/
def start_session (sessions : List String) (sid : String)
    (nav : NavOutcomes) : Except Unit String × List String :=
  if navigate_tiered nav then
    (Except.ok sid, if sid ∈ sessions then sessions else sessions ++ [sid])
  else
    (Except.error (), sessions)

/-- Responses of POST /start that the registry model distinguishes. -/
inductive StartResp where
  | ok (sid : String)
  /-- 503 with code SESSION_LIMIT_EXCEEDED (server.py lines 240-247). -/
  | limit503
  /-- 500: the navigation failure propagated out of
  browser_controller.start_session (server.py lines 272-274). -/
  | err500
  deriving DecidableEq, Repr

/-- server.start_session, the POST /start handler (lines 228-274): if the
timer count is at or above the ceiling, run cleanup_old_sessions; if still
at or above, 503 SESSION_LIMIT_EXCEEDED.  Otherwise create the browser
session (may fail with a navigation error) and schedule its idle timer with
start_immediately = False. -/
def start_session_endpoint (s : St) (sid : String) (nav : NavOutcomes) :
    StartResp × St :=
  let s1 := if MAX_CONCURRENT_SESSIONS ≤ s.timers.length then
    cleanup_old_sessions s else s
  if MAX_CONCURRENT_SESSIONS ≤ s1.timers.length then
    (StartResp.limit503, s1)
  else
    match start_session s1.sessions sid nav with
    | (Except.error _, sess) => (StartResp.err500, { s1 with sessions := sess })
    | (Except.ok _, sess) =>
        let s2 : St := { s1 with sessions := sess }
        (StartResp.ok sid, schedule_session_timeout s2 sid false)

/-- server.schedule_session_timeout, timeout_handler (lines 123-129): when
the idle timer fires it closes the session if still present in `_sessions`
and deletes its own timer entry if still present. -/
def timerFire (s : St) (sid : String) : St :=
  { sessions := if sid ∈ s.sessions then
      close_session s.sessions sid false else s.sessions
    timers := if sid ∈ s.timers then s.timers.erase sid else s.timers }

/-- The timer-refresh prologue shared by POST /click and POST /screenshot
(server.py lines 286-290 and 326-330): reset an existing timer, or schedule
a fresh one on first activity. -/
def activityStep (s : St) (sid : String) : St :=
  if sid ∈ s.timers then schedule_session_timeout s sid true
  else schedule_session_timeout s sid false

/-- The registry-mutating operations a caller (or a firing timer) can
perform, for reasoning about arbitrary operation sequences. -/
inductive Op where
  | create (sid : String) (nav : NavOutcomes)
  | close (sid : String) (pageCloseRaises : Bool)
  | timerExpire (sid : String)
  | activity (sid : String)
  deriving DecidableEq, Repr

/-- One registry transition. -/
def step (s : St) : Op → St
  | Op.create sid nav => (start_session_endpoint s sid nav).2
  | Op.close sid b => closeOp s sid b
  | Op.timerExpire sid => timerFire s sid
  | Op.activity sid => activityStep s sid

/-- The empty registry at process start (server.py line 64,
browser_controller.py line 11). -/
def initSt : St := { sessions := [], timers := [] }

/-- Run a sequence of operations from process start. -/
def run (ops : List Op) : St := ops.foldl step initSt

/-- The registry well-formedness invariant: both dictionaries have distinct
keys, every live page has a timer entry, and the timer count respects the
ceiling. -/
def Inv (s : St) : Prop :=
  s.sessions.Nodup ∧ s.timers.Nodup ∧
    (∀ k, k ∈ s.sessions → k ∈ s.timers) ∧
    s.timers.length ≤ MAX_CONCURRENT_SESSIONS

theorem close_session_eq_erase (l : List String) (sid : String) (b : Bool) :
    close_session l sid b = l.erase sid := by
  unfold close_session
  by_cases h : sid ∈ l
  · cases b <;> simp [h]
  · simp [h, List.erase_of_not_mem h]

theorem closeOp_Inv (s : St) (sid : String) (b : Bool) (h : Inv s) :
    Inv (closeOp s sid b) := by
  obtain ⟨hs, ht, hsub, hlen⟩ := h
  unfold closeOp
  rw [close_session_eq_erase]
  refine ⟨hs.erase sid, ?_, ?_, ?_⟩
  · split
    · exact ht.erase sid
    · exact ht
  · intro k hk
    rw [hs.mem_erase_iff] at hk
    obtain ⟨hne, hk⟩ := hk
    have hkt := hsub k hk
    split
    · rw [ht.mem_erase_iff]
      exact ⟨hne, hkt⟩
    · exact hkt
  · split
    · exact le_trans (List.erase_sublist sid s.timers).length_le hlen
    · exact hlen

theorem cleanup_Inv (s : St) (h : Inv s) : Inv (cleanup_old_sessions s) := by
  unfold cleanup_old_sessions
  split
  · cases hh : s.timers.head? with
    | none => exact h
    | some oldest => exact closeOp_Inv s oldest false h
  · exact h

theorem cleanup_eq_self (s : St)
    (h : s.timers.length ≤ MAX_CONCURRENT_SESSIONS) :
    cleanup_old_sessions s = s := by
  unfold cleanup_old_sessions
  rw [if_neg (not_lt.mpr h)]

theorem schedule_Inv (s : St) (sid : String) (r : Bool) (h : Inv s) :
    Inv (schedule_session_timeout s sid r) := by
  unfold schedule_session_timeout
  split
  · rename_i hmem
    have hs1 : (if r then s else cleanup_old_sessions s) = s := by
      cases r with
      | false => simpa using cleanup_eq_self s h.2.2.2
      | true => simp
    rw [hs1]
    have ht : sid ∈ s.timers := h.2.2.1 sid hmem
    rw [if_pos ht]
    exact h
  · exact h

theorem timerFire_eq_closeOp (s : St) (sid : String) :
    timerFire s sid = closeOp s sid false := by
  unfold timerFire closeOp
  congr 1
  split
  · rfl
  · rename_i hm
    rw [close_session_eq_erase, List.erase_of_not_mem hm]

theorem timerFire_Inv (s : St) (sid : String) (h : Inv s) :
    Inv (timerFire s sid) := by
  rw [timerFire_eq_closeOp]
  exact closeOp_Inv s sid false h

theorem schedule_fresh (s : St) (sid : String) (hmem : sid ∈ s.sessions)
    (hlen : s.timers.length ≤ MAX_CONCURRENT_SESSIONS) :
    schedule_session_timeout s sid false =
      if sid ∈ s.timers then s
      else { s with timers := s.timers ++ [sid] } := by
  unfold schedule_session_timeout
  rw [if_pos hmem]
  dsimp only
  rw [cleanup_eq_self s hlen]
  simp

theorem start_endpoint_Inv (s : St) (sid : String) (nav : NavOutcomes)
    (h : Inv s) : Inv (start_session_endpoint s sid nav).2 := by
  obtain ⟨hs, ht, hsub, hlen⟩ := h
  have hclean : (if MAX_CONCURRENT_SESSIONS ≤ s.timers.length then
      cleanup_old_sessions s else s) = s := by
    split
    · exact cleanup_eq_self s hlen
    · rfl
  unfold start_session_endpoint
  rw [hclean]
  dsimp only
  by_cases hcap : MAX_CONCURRENT_SESSIONS ≤ s.timers.length
  · rw [if_pos hcap]
    exact ⟨hs, ht, hsub, hlen⟩
  · rw [if_neg hcap]
    have hlt : s.timers.length < MAX_CONCURRENT_SESSIONS := not_le.mp hcap
    by_cases hnav : navigate_tiered nav = true
    · rw [show start_session s.sessions sid nav =
          (Except.ok sid, if sid ∈ s.sessions then s.sessions
            else s.sessions ++ [sid]) from by
        unfold start_session
        rw [if_pos hnav]]
      by_cases hmem : sid ∈ s.sessions
      · rw [if_pos hmem]
        dsimp only
        exact schedule_Inv s sid false ⟨hs, ht, hsub, hlen⟩
      · rw [if_neg hmem]
        dsimp only
        rw [schedule_fresh ⟨s.sessions ++ [sid], s.timers⟩ sid
          (by simp) hlen]
        have hnodup : (s.sessions ++ [sid]).Nodup := by
          simp [List.nodup_append, hs, hmem]
        by_cases htm : sid ∈ s.timers
        · rw [if_pos htm]
          refine ⟨hnodup, ht, ?_, hlen⟩
          intro k hk
          rcases List.mem_append.mp hk with hk | hk
          · exact hsub k hk
          · simp only [List.mem_singleton] at hk
            exact hk ▸ htm
        · rw [if_neg htm]
          refine ⟨hnodup, ?_, ?_, ?_⟩
          · simp [List.nodup_append, ht, htm]
          · intro k hk
            rcases List.mem_append.mp hk with hk | hk
            · exact List.mem_append_left _ (hsub k hk)
            · simp only [List.mem_singleton] at hk
              simp [hk]
          · simp only [List.length_append, List.length_singleton]
            omega
    · rw [show start_session s.sessions sid nav =
          (Except.error (), s.sessions) from by
        unfold start_session
        rw [if_neg hnav]]
      exact ⟨hs, ht, hsub, hlen⟩

theorem step_Inv (s : St) (op : Op) (h : Inv s) : Inv (step s op) := by
  cases op with
  | create sid nav => exact start_endpoint_Inv s sid nav h
  | close sid b => exact closeOp_Inv s sid b h
  | timerExpire sid => exact timerFire_Inv s sid h
  | activity sid =>
      show Inv (activityStep s sid)
      unfold activityStep
      split <;> exact schedule_Inv s sid _ h

theorem initSt_Inv : Inv initSt := by
  refine ⟨List.nodup_nil, List.nodup_nil, ?_, ?_⟩
  · intro k hk
    simp [initSt] at hk
  · simp [initSt, MAX_CONCURRENT_SESSIONS]

theorem foldl_Inv (ops : List Op) (s : St) (h : Inv s) :
    Inv (ops.foldl step s) := by
  induction ops generalizing s with
  | nil => exact h
  | cons op rest ih => exact ih (step s op) (step_Inv s op h)

theorem run_Inv (ops : List Op) : Inv (run ops) :=
  foldl_Inv ops initSt initSt_Inv

theorem closeOp_absent (s : St) (sid : String) (b : Bool)
    (h1 : sid ∉ s.sessions) (h2 : sid ∉ s.timers) : closeOp s sid b = s := by
  unfold closeOp
  rw [close_session_eq_erase, List.erase_of_not_mem h1, if_neg h2]

/-- Navigation outcome in which the first tier already succeeds. -/
def navOk : NavOutcomes := { domcontentloaded := true, load := true, networkidle := true }

/-- Four successful creates from process start. -/
def fourCreates : List Op :=
  [Op.create "a" navOk, Op.create "b" navOk,
   Op.create "c" navOk, Op.create "d" navOk]

/-- C1: for every sequence of create, close, idle-timeout and activity
operations starting from the empty registry, the number of sessions held in
the registry (both the `_sessions` page map and the `session_timers` map)
is at most MAX_CONCURRENT_SESSIONS = 4 after every operation — in
particular immediately after any create operation completes
successfully. -/
theorem registry_size_at_most_max (ops : List Op) :
    (run ops).sessions.length ≤ MAX_CONCURRENT_SESSIONS ∧
    (run ops).timers.length ≤ MAX_CONCURRENT_SESSIONS := by
  obtain ⟨hs, _ht, hsub, hlen⟩ := run_Inv ops
  refine ⟨?_, hlen⟩
  exact le_trans
    (List.subperm_of_subset hs (fun k hk => hsub k hk)).length_le hlen

/-- C2 counterexample: after four successful creates the registry holds
exactly MAX_CONCURRENT_SESSIONS = 4 sessions.  A fifth create does NOT
evict the oldest session "a" and does NOT succeed: it returns 503
SESSION_LIMIT_EXCEEDED and leaves the registry unchanged, with "a" still
present — refuting the claim that the oldest session is evicted and the
create then succeeds. -/
theorem at_capacity_create_refuted :
    (run fourCreates).timers = ["a", "b", "c", "d"] ∧
    start_session_endpoint (run fourCreates) "e" navOk =
      (StartResp.limit503, run fourCreates) ∧
    "a" ∈ (start_session_endpoint (run fourCreates) "e" navOk).2.timers ∧
    "e" ∉ (start_session_endpoint (run fourCreates) "e" navOk).2.sessions := by
  refine ⟨rfl, rfl, ?_, ?_⟩ <;> decide

/-- C2 amended: when a create request arrives with the registry holding
exactly MAX_CONCURRENT_SESSIONS sessions, cleanup_old_sessions evicts
nothing (it evicts the oldest session only when the count STRICTLY exceeds
the ceiling), so the create fails with 503 SESSION_LIMIT_EXCEEDED and the
registry is unchanged; eviction followed by a successful create can only
happen from a count strictly above the ceiling. -/
theorem at_capacity_create_rejected (s : St) (sid : String)
    (nav : NavOutcomes)
    (h : s.timers.length = MAX_CONCURRENT_SESSIONS) :
    cleanup_old_sessions s = s ∧
    start_session_endpoint s sid nav = (StartResp.limit503, s) := by
  have hle : s.timers.length ≤ MAX_CONCURRENT_SESSIONS := le_of_eq h
  have hge : MAX_CONCURRENT_SESSIONS ≤ s.timers.length := le_of_eq h.symm
  have hcl := cleanup_eq_self s hle
  refine ⟨hcl, ?_⟩
  unfold start_session_endpoint
  rw [if_pos hge, hcl]
  dsimp only
  rw [if_pos hge]

theorem at_capacity_create_rejected_witness :
    cleanup_old_sessions (run fourCreates) = run fourCreates ∧
    start_session_endpoint (run fourCreates) "e" navOk =
      (StartResp.limit503, run fourCreates) :=
  at_capacity_create_rejected (run fourCreates) "e" navOk (by decide)

/-- C8: the close path (cancel the idle timer if present, run
browser_controller.close_session, delete the timer entry if present) is
idempotent, removes both the registry entry and the timer entry, and is a
no-op — never an error — on an unknown or already-closed id; this holds on
the page-close error path (b = true) as well. -/
theorem close_idempotent_and_noop (s : St) (sid : String) (b b' : Bool)
    (hs : s.sessions.Nodup) (ht : s.timers.Nodup) :
    sid ∉ (closeOp s sid b).sessions ∧
    sid ∉ (closeOp s sid b).timers ∧
    closeOp (closeOp s sid b) sid b' = closeOp s sid b ∧
    (sid ∉ s.sessions → sid ∉ s.timers → closeOp s sid b = s) := by
  have h1 : sid ∉ (closeOp s sid b).sessions := by
    unfold closeOp
    rw [close_session_eq_erase]
    intro hmem
    exact ((hs.mem_erase_iff).mp hmem).1 rfl
  have h2 : sid ∉ (closeOp s sid b).timers := by
    unfold closeOp
    dsimp only
    split
    · intro hmem
      exact ((ht.mem_erase_iff).mp hmem).1 rfl
    · assumption
  exact ⟨h1, h2, closeOp_absent _ sid b' h1 h2, fun ha hb => closeOp_absent s sid b ha hb⟩

theorem close_idempotent_and_noop_witness :
    "a" ∉ (closeOp ⟨["a"], ["a"]⟩ "a" true).sessions ∧
    "a" ∉ (closeOp ⟨["a"], ["a"]⟩ "a" true).timers ∧
    closeOp (closeOp ⟨["a"], ["a"]⟩ "a" true) "a" false =
      closeOp ⟨["a"], ["a"]⟩ "a" true ∧
    ("a" ∉ (⟨["a"], ["a"]⟩ : St).sessions →
      "a" ∉ (⟨["a"], ["a"]⟩ : St).timers →
      closeOp ⟨["a"], ["a"]⟩ "a" true = ⟨["a"], ["a"]⟩) :=
  close_idempotent_and_noop ⟨["a"], ["a"]⟩ "a" true false
    (by decide) (by decide)

/-- C9: if navigation fails on every fallback tier (domcontentloaded, load
and networkidle all raise), browser_controller.start_session propagates the
failure and leaves `_sessions` unchanged, so the freshly generated session
id is never added to the sessions map. -/
theorem nav_failure_leaves_registry_unchanged (sessions : List String)
    (sid : String) (nav : NavOutcomes)
    (h1 : nav.domcontentloaded = false) (h2 : nav.load = false)
    (h3 : nav.networkidle = false) :
    start_session sessions sid nav = (Except.error (), sessions) ∧
    (sid ∉ sessions → sid ∉ (start_session sessions sid nav).2) := by
  have hnav : navigate_tiered nav = false := by
    unfold navigate_tiered
    rw [h1, h2, h3]
    simp
  have hres : start_session sessions sid nav = (Except.error (), sessions) := by
    unfold start_session
    rw [hnav]
    simp
  exact ⟨hres, fun hmem => by rw [hres]; exact hmem⟩

theorem nav_failure_leaves_registry_unchanged_witness :
    start_session ["a"] "b" ⟨false, false, false⟩ =
      (Except.error (), ["a"]) ∧
    ("b" ∉ ["a"] → "b" ∉ (start_session ["a"] "b" ⟨false, false, false⟩).2) :=
  nav_failure_leaves_registry_unchanged ["a"] "b" ⟨false, false, false⟩
    rfl rfl rfl

/-- C10: after browser_controller.close_session returns for an id present in
the registry, the id is absent from the sessions map, on the success path
(b = false) and on the error path where closing the page raised
(b = true) alike. -/
theorem close_session_removes_entry (sessions : List String) (sid : String)
    (b : Bool) (hn : sessions.Nodup) (_h : sid ∈ sessions) :
    sid ∉ close_session sessions sid b := by
  rw [close_session_eq_erase]
  intro hmem
  exact ((hn.mem_erase_iff).mp hmem).1 rfl

theorem close_session_removes_entry_witness :
    "a" ∉ close_session ["a", "b"] "a" true ∧
    "a" ∉ close_session ["a", "b"] "a" false :=
  ⟨close_session_removes_entry ["a", "b"] "a" true (by decide) (by decide),
   close_session_removes_entry ["a", "b"] "a" false (by decide) (by decide)⟩

/-!
## Target resolution and click execution

Embedding of browser_controller.click_at (lines 198-377).  The in-page
resolution script (lines 214-331) observes, at the requested point, a
front-to-back stack of elements (document.elementsFromPoint), the page
iframes, and a topmost element (document.elementFromPoint); an element is
modelled by its bounding client rect and the boolean interactivity signals
the script tests.  Pixel quantities computed by getBoundingClientRect are
rationals; the Python int() conversion truncates toward zero.
-/

/-- One DOM element as the resolution script observes it.  The five blue
fields record whether outlineColor / borderColor / boxShadow contain the
Figma highlight color rgb(18, 96, 255) (lines 227-237); the rest mirror
the cursor, onclick, role and tag tests of lines 238-243. -/
structure Elem where
  left : ℚ
  top : ℚ
  width : ℚ
  height : ℚ
  outlineBlue : Bool
  borderBlue : Bool
  boxShadowBlue : Bool
  cursorPointer : Bool
  hasOnclick : Bool
  roleButton : Bool
  tagButton : Bool
  tagA : Bool
  deriving DecidableEq, Repr

/-- The hasBlueHighlight test of lines 232-243: any recognized
interactivity signal. -/
def hasBlueHighlight (e : Elem) : Bool :=
  e.outlineBlue || e.borderBlue || e.boxShadowBlue || e.cursorPointer ||
    e.hasOnclick || e.roleButton || e.tagButton || e.tagA

/-- Horizontal bounding-box center, rect.left + rect.width / 2 (line 249). -/
def centerX (e : Elem) : ℚ := e.left + e.width / 2

/-- Vertical bounding-box center, rect.top + rect.height / 2 (line 250). -/
def centerY (e : Elem) : ℚ := e.top + e.height / 2

/-- One iframe as the script and the Python frame-click fallback observe it:
bounding rect, same-origin accessibility (contentDocument reachable; a
cross-origin access raises and the loop continues), the elements of its
content document by local point, and whether a frame.mouse.click against it
completes without raising (lines 345-363). -/
structure IframeModel where
  left : ℚ
  top : ℚ
  width : ℚ
  height : ℚ
  accessible : Bool
  elementAtLocal : ℚ → ℚ → Option Elem
  frameClickWorks : Bool

/-- The value the resolution script returns when found is true: the
corrected center point, the isClickable flag and the isIframe flag. -/
structure FoundInfo where
  centerX : ℚ
  centerY : ℚ
  isClickable : Bool
  isIframe : Bool
  deriving DecidableEq, Repr

/-- Loop of lines 221-259: first element of the front-to-back stack with a
recognized interactivity signal and a positive-size bounding rect. -/
def findHighlighted : List Elem → Option Elem
  | [] => none
  | e :: rest =>
      if hasBlueHighlight e = true ∧ 0 < e.width ∧ 0 < e.height then some e
      else findHighlighted rest

/-- Loop of lines 263-309: first iframe whose rect contains the point, that
is same-origin accessible, and whose content element at the translated
local point has a pointer cursor, click handler or button role; its center
is translated back into page coordinates. -/
def iframeScan (x y : ℚ) : List IframeModel → Option FoundInfo
  | [] => none
  | f :: rest =>
      if f.left ≤ x ∧ x ≤ f.left + f.width ∧ f.top ≤ y ∧
          y ≤ f.top + f.height then
        if f.accessible = true then
          match f.elementAtLocal (x - f.left) (y - f.top) with
          | some e =>
              if e.cursorPointer || e.hasOnclick || e.roleButton then
                some { centerX := f.left + e.left + e.width / 2
                       centerY := f.top + e.top + e.height / 2
                       isClickable := true
                       isIframe := true }
              else iframeScan x y rest
          | none => iframeScan x y rest
        else iframeScan x y rest
      else iframeScan x y rest

/-- What the page presents at and around the requested point: the
front-to-back element stack by point, the iframes, and the topmost element
by point (for the generic fallback of lines 311-327). -/
structure PageModel where
  elementsAt : ℤ → ℤ → List Elem
  iframes : List IframeModel
  elementAt : ℤ → ℤ → Option Elem

/-- The full resolution script (lines 214-331), ordered: highlighted element
first, then iframe contents, then the generic topmost element, else
found = false (modelled as none). -/
def resolveCandidate (p : PageModel) (x y : ℤ) : Option FoundInfo :=
  match findHighlighted (p.elementsAt x y) with
  | some e => some (FoundInfo.mk (centerX e) (centerY e) true false)
  | none =>
      match iframeScan (x : ℚ) (y : ℚ) p.iframes with
      | some info => some info
      | none =>
          match p.elementAt x y with
          | some e => some (FoundInfo.mk (centerX e) (centerY e) false false)
          | none => none

/-- Python int() on a rational value: truncation toward zero. -/
def pyInt (q : ℚ) : ℤ := if 0 ≤ q then ⌊q⌋ else ⌈q⌉

/-- Lines 333-340: the coordinates actually used for the pointer action —
the int-truncated candidate center when the script found an element, the
raw input point otherwise. -/
def actualPoint (p : PageModel) (x y : ℤ) : ℤ × ℤ :=
  match resolveCandidate p x y with
  | some i => (pyInt i.centerX, pyInt i.centerY)
  | none => (x, y)

/-- Whether the resolved candidate carries isIframe = true (line 343). -/
def candidateIsIframe (p : PageModel) (x y : ℤ) : Bool :=
  match resolveCandidate p x y with
  | some i => i.isIframe
  | none => false

/-- Lines 345-363: try each iframe handle in turn; the first with a content
frame and bounding box whose frame.mouse.click does not raise receives the
click at the frame-local translated coordinates. -/
def iframeClickAttempt (ax ay : ℤ) : List IframeModel → Option (ℤ × ℤ)
  | [] => none
  | f :: rest =>
      if f.accessible = true ∧ f.frameClickWorks = true then
        some (ax - pyInt f.left, ay - pyInt f.top)
      else iframeClickAttempt ax ay rest

/-- Exception flags for one click_at call: whether the page.evaluate
candidate lookup raises and whether the top-level page.mouse.click
raises. -/
structure ClickEnv where
  sessionLive : Bool
  page : PageModel
  lookupRaises : Bool
  clickRaises : Bool

/-- Observable outcome of one click_at call: the Python return value, the
coordinates passed to the top-level page.mouse.click, and the coordinates
passed to a frame.mouse.click. -/
structure ClickTrace where
  returned : Bool
  topClick : Option (ℤ × ℤ)
  frameClick : Option (ℤ × ℤ)
  deriving DecidableEq, Repr

/-- The top-level pointer action plus the surrounding try handler: an
exception from page.mouse.click is caught at lines 373-377 and click_at
returns False. -/
def topClickTrace (env : ClickEnv) (actual : ℤ × ℤ) : ClickTrace :=
  if env.clickRaises = true then
    { returned := false, topClick := some actual, frameClick := none }
  else
    { returned := true, topClick := some actual, frameClick := none }

/-- browser_controller.click_at (lines 198-377).  A missing or closed
session returns False (lines 206-208).  Every exception inside the try
block — the candidate lookup included — is caught at lines 373-377 and the
function returns False; the result type records that no exception ever
propagates (every branch is Except.ok). -/
def click_at (env : ClickEnv) (x y : ℤ) : Except String ClickTrace :=
  if env.sessionLive = false then
    Except.ok { returned := false, topClick := none, frameClick := none }
  else if env.lookupRaises = true then
    Except.ok { returned := false, topClick := none, frameClick := none }
  else
    let actual := actualPoint env.page x y
    if candidateIsIframe env.page x y = true then
      match iframeClickAttempt actual.1 actual.2 env.page.iframes with
      | some fc => Except.ok
          { returned := true, topClick := none, frameClick := some fc }
      | none => Except.ok (topClickTrace env actual)
    else Except.ok (topClickTrace env actual)

/-- First element of the stack with a recognized interactivity signal,
without the positive-size rect condition: the claim speaks of the first
element exposing a signal. -/
def firstSignal : List Elem → Option Elem
  | [] => none
  | e :: rest =>
      if hasBlueHighlight e = true then some e else firstSignal rest

/-- The defining property of document.elementsFromPoint(x, y): every
returned element's border box contains the point (hence has positive
size). -/
def containsPt (e : Elem) (x y : ℤ) : Prop :=
  e.left ≤ (x : ℚ) ∧ (x : ℚ) < e.left + e.width ∧
    e.top ≤ (y : ℚ) ∧ (y : ℚ) < e.top + e.height

/-- A page with nothing at all under the point: empty stack, no iframes, no
topmost element. -/
def emptyPage : PageModel :=
  { elementsAt := fun _ _ => [], iframes := [], elementAt := fun _ _ => none }

theorem findHighlighted_eq_firstSignal (x y : ℤ) (l : List Elem)
    (h : ∀ e ∈ l, containsPt e x y) :
    findHighlighted l = firstSignal l := by
  induction l with
  | nil => rfl
  | cons e rest ih =>
      have hc := h e (by simp)
      have hw : 0 < e.width := by
        obtain ⟨a, b, _, _⟩ := hc
        linarith
      have hh : 0 < e.height := by
        obtain ⟨_, _, c, d⟩ := hc
        linarith
      unfold findHighlighted firstSignal
      by_cases hb : hasBlueHighlight e = true
      · rw [if_pos ⟨hb, hw, hh⟩, if_pos hb]
      · rw [if_neg (fun hcontra => hb hcontra.1), if_neg hb]
        exact ih (fun e2 he2 => h e2 (List.mem_cons_of_mem e he2))

theorem abs_pyInt_sub_lt_one (q : ℚ) : |(pyInt q : ℚ) - q| < 1 := by
  unfold pyInt
  split
  · rw [abs_sub_lt_iff]
    constructor
    · linarith [Int.floor_le q]
    · linarith [Int.lt_floor_add_one q]
  · rw [abs_sub_lt_iff]
    constructor
    · linarith [Int.ceil_lt_add_one q]
    · linarith [Int.le_ceil q]

theorem pyInt_ne_of_far (q : ℚ) (n : ℤ) (h : 5 < |q - (n : ℚ)|) :
    pyInt q ≠ n := by
  intro he
  have h1 := abs_pyInt_sub_lt_one q
  rw [he, abs_sub_comm] at h1
  linarith

instance decContainsPt (e : Elem) (x y : ℤ) : Decidable (containsPt e x y) := by
  unfold containsPt
  infer_instance

/-- A 100 x 50 element at the origin whose only interactivity signal is a
pointer-style cursor. -/
def demoButton : Elem :=
  ⟨0, 0, 100, 50, false, false, false, true, false, false, false, false⟩

/-- A page whose element stack at every point is just `demoButton`. -/
def demoPage : PageModel :=
  { elementsAt := fun _ _ => [demoButton]
    iframes := []
    elementAt := fun _ _ => some demoButton }

/-- C5: when some element of the front-to-back stack at the requested point
exposes a recognized interactivity signal, the pointer action is performed
at the first such element's bounding-box center (int-truncated, as Python
int() does), and the acted-on point differs from the requested point
whenever either center coordinate is more than a few (5) pixels away from
it.  The hypothesis `containsPt` is the defining property of the
document.elementsFromPoint input: each stacked element's box contains the
point, hence has positive size. -/
theorem click_snaps_to_first_indicator_center (env : ClickEnv) (x y : ℤ)
    (e0 : Elem)
    (hlive : env.sessionLive = true) (hl : env.lookupRaises = false)
    (hc : env.clickRaises = false)
    (hat : ∀ e ∈ env.page.elementsAt x y, containsPt e x y)
    (hfs : firstSignal (env.page.elementsAt x y) = some e0) :
    click_at env x y = Except.ok
      { returned := true
        topClick := some (pyInt (centerX e0), pyInt (centerY e0))
        frameClick := none } ∧
    ((5 < |centerX e0 - (x : ℚ)| ∨ 5 < |centerY e0 - (y : ℚ)|) →
      (pyInt (centerX e0), pyInt (centerY e0)) ≠ (x, y)) := by
  have hres : resolveCandidate env.page x y =
      some (FoundInfo.mk (centerX e0) (centerY e0) true false) := by
    unfold resolveCandidate
    rw [findHighlighted_eq_firstSignal x y _ hat, hfs]
  have hact : actualPoint env.page x y =
      (pyInt (centerX e0), pyInt (centerY e0)) := by
    unfold actualPoint
    rw [hres]
  have hifr : candidateIsIframe env.page x y = false := by
    unfold candidateIsIframe
    rw [hres]
  constructor
  · simp [click_at, hlive, hl, hc, hifr, hact, topClickTrace]
  · intro hfar heq
    rw [Prod.mk.injEq] at heq
    cases hfar with
    | inl h5 => exact pyInt_ne_of_far (centerX e0) x h5 heq.1
    | inr h5 => exact pyInt_ne_of_far (centerY e0) y h5 heq.2

theorem click_snaps_to_first_indicator_center_witness :
    click_at ⟨true, demoPage, false, false⟩ 0 0 = Except.ok
      { returned := true
        topClick := some (50, 25)
        frameClick := none } := by
  have h := click_snaps_to_first_indicator_center
    ⟨true, demoPage, false, false⟩ 0 0 demoButton rfl rfl rfl
    (by
      intro e he
      have he2 : e = demoButton := by simpa [demoPage] using he
      subst he2
      unfold containsPt demoButton
      norm_num)
    rfl
  have hx : pyInt (centerX demoButton) = 50 := by
    norm_num [pyInt, centerX, demoButton]
  have hy : pyInt (centerY demoButton) = 25 := by
    norm_num [pyInt, centerY, demoButton]
  rw [hx, hy] at h
  exact h.1

/-- C6: when the resolution script finds nothing at all at the point
(candidate none-found), the pointer action is performed at exactly the
input coordinates, with no coordinate correction. -/
theorem click_none_found_uses_raw_point (env : ClickEnv) (x y : ℤ)
    (hlive : env.sessionLive = true) (hl : env.lookupRaises = false)
    (hc : env.clickRaises = false)
    (hnone : resolveCandidate env.page x y = none) :
    click_at env x y = Except.ok
      { returned := true, topClick := some (x, y), frameClick := none } := by
  have hact : actualPoint env.page x y = (x, y) := by
    unfold actualPoint
    rw [hnone]
  have hifr : candidateIsIframe env.page x y = false := by
    unfold candidateIsIframe
    rw [hnone]
  simp [click_at, hlive, hl, hc, hact, hifr, topClickTrace]

theorem click_none_found_uses_raw_point_witness :
    resolveCandidate emptyPage 12 34 = none ∧
    click_at ⟨true, emptyPage, false, false⟩ 12 34 = Except.ok
      { returned := true, topClick := some (12, 34), frameClick := none } :=
  ⟨rfl, click_none_found_uses_raw_point
    ⟨true, emptyPage, false, false⟩ 12 34 rfl rfl rfl rfl⟩

/-- C4 counterexample: on a live session, when the candidate lookup raises,
click_at returns the NORMAL outcome False (an Except.ok value, with no
pointer action) instead of failing with an InteractionError — the source
(lines 373-377) catches every exception and returns False, and no
InteractionError type exists anywhere in the repository. -/
theorem click_lookup_exception_normal_return :
    click_at ⟨true, emptyPage, true, false⟩ 7 9 =
      Except.ok { returned := false, topClick := none, frameClick := none } :=
  rfl

/-- C4 amended: every exception raised during candidate lookup or during
the pointer action itself is caught inside click_at, which returns the
normal outcome False — click_at never propagates an exception of any kind
(every run is an Except.ok), so the endpoint reports an ordinary
ok / click_failed response rather than a classified InteractionError. -/
theorem click_exceptions_swallowed (env : ClickEnv) (x y : ℤ)
    (hlive : env.sessionLive = true) :
    (∃ tr, click_at env x y = Except.ok tr) ∧
    (env.lookupRaises = true →
      click_at env x y =
        Except.ok { returned := false, topClick := none, frameClick := none }) ∧
    (env.lookupRaises = false → env.clickRaises = true →
      candidateIsIframe env.page x y = false →
      click_at env x y = Except.ok
        { returned := false
          topClick := some (actualPoint env.page x y)
          frameClick := none }) := by
  refine ⟨?_, ?_, ?_⟩
  · unfold click_at
    split
    · exact ⟨_, rfl⟩
    · split
      · exact ⟨_, rfl⟩
      · dsimp only
        split
        · split
          · exact ⟨_, rfl⟩
          · exact ⟨_, rfl⟩
        · exact ⟨_, rfl⟩
  · intro h1
    simp [click_at, hlive, h1]
  · intro h1 h2 h3
    simp [click_at, hlive, h1, h2, h3, topClickTrace]

theorem click_exceptions_swallowed_witness :
    click_at ⟨true, emptyPage, true, false⟩ 0 0 =
      Except.ok { returned := false, topClick := none, frameClick := none } :=
  (click_exceptions_swallowed ⟨true, emptyPage, true, false⟩ 0 0 rfl).2.1 rfl

/-!
## Capture service (browser_controller.take_screenshot, lines 515-573)
and the HTTP error classification of the POST /screenshot, /click and
/extract-context handlers.
-/

/-- One take_screenshot call: whether the session is live, whether the page
URL contains figma.com, and whether each page.screenshot attempt exceeds
its asyncio.wait_for budget. -/
structure ShotEnv where
  sessionLive : Bool
  urlIsFigma : Bool
  firstTimesOut : Bool
  retryTimesOut : Bool
  deriving DecidableEq, Repr

/-- Line 534: 20 seconds for Figma prototypes, 10 otherwise. -/
def screenshotTimeout (isFigma : Bool) : ℚ := if isFigma = true then 20 else 10

/-- How a take_screenshot call ends: returned JPEG bytes captured at the
given quality, or a raised ValueError whose message contains the word
timeout (line 564), or the ValueError for a missing session whose message
does not (line 525). -/
inductive ShotOutcome where
  | bytes (quality : Nat)
  | valueErrorTimeout
  | valueErrorNotFound
  deriving DecidableEq, Repr

/-- The attempts actually made — (jpeg quality, wait_for budget in seconds)
in order — and the final result. -/
structure ShotTrace where
  attempts : List (Nat × ℚ)
  outcome : ShotOutcome
  deriving DecidableEq, Repr

/-- browser_controller.take_screenshot (lines 515-573): first attempt at
quality 60 under the URL-dependent budget (lines 537-542); on timeout one
retry at quality 40 under the SAME budget variable (lines 547-553); if the
retry also times out, ValueError with a timeout message (line 564). -/
def take_screenshot (e : ShotEnv) : ShotTrace :=
  if e.sessionLive = false then
    { attempts := [], outcome := ShotOutcome.valueErrorNotFound }
  else
    let t := screenshotTimeout e.urlIsFigma
    if e.firstTimesOut = false then
      { attempts := [(60, t)], outcome := ShotOutcome.bytes 60 }
    else if e.retryTimesOut = false then
      { attempts := [(60, t), (40, t)], outcome := ShotOutcome.bytes 40 }
    else
      { attempts := [(60, t), (40, t)],
        outcome := ShotOutcome.valueErrorTimeout }

/-- HTTP classification of the POST /screenshot handler. -/
inductive ShotHttp where
  /-- 200 with the base64 screenshot. -/
  | ok200
  /-- 504 with code SCREENSHOT_TIMEOUT (server.py lines 352-360). -/
  | screenshotTimeout504
  /-- 410 with code SESSION_NOT_FOUND (server.py lines 334-343 and
  361-370). -/
  | sessionNotFound410
  deriving DecidableEq, Repr

/-- server.py lines 345-370: a ValueError whose message contains timeout
becomes 504 SCREENSHOT_TIMEOUT, any other ValueError becomes 410
SESSION_NOT_FOUND, bytes become a 200 response. -/
def screenshot_error_response (o : ShotOutcome) : ShotHttp :=
  match o with
  | ShotOutcome.bytes _ => ShotHttp.ok200
  | ShotOutcome.valueErrorTimeout => ShotHttp.screenshotTimeout504
  | ShotOutcome.valueErrorNotFound => ShotHttp.sessionNotFound410

/-- server.is_session_valid (lines 70-73): membership in _sessions (stored
pages are never None). -/
def is_session_valid (s : St) (sid : String) : Bool :=
  decide (sid ∈ s.sessions)

/-- The full POST /screenshot handler response (lines 318-398): the
is_session_valid guard yields 410 SESSION_NOT_FOUND before any capture is
attempted; otherwise the take_screenshot outcome is classified. -/
def screenshot_endpoint_response (s : St) (sid : String) (e : ShotEnv) :
    ShotHttp :=
  if is_session_valid s sid = false then ShotHttp.sessionNotFound410
  else screenshot_error_response (take_screenshot e).outcome

/-- HTTP classification of the POST /click handler. -/
inductive ClickHttp where
  /-- 200 with status ok. -/
  | okResp
  /-- 200 with status click_failed (URL unchanged, lines 308-309). -/
  | clickFailed
  /-- 410 with code SESSION_NOT_FOUND (lines 293-302). -/
  | sessionNotFound410
  deriving DecidableEq, Repr

/-- server.py POST /click (lines 276-316): the is_session_valid guard
yields 410 SESSION_NOT_FOUND; otherwise the response depends only on
whether the page URL changed across the click (click_at itself never
raises). -/
def click_endpoint_response (s : St) (sid : String) (urlChanged : Bool) :
    ClickHttp :=
  if is_session_valid s sid = false then ClickHttp.sessionNotFound410
  else if urlChanged = true then ClickHttp.okResp
  else ClickHttp.clickFailed

/-- The context payload browser_controller.extract_context (lines 575-593)
produces: the extracted context, or the literal error dictionary it returns
for a missing or closed session (line 584). -/
inductive CtxPayload where
  | extracted
  | errorObj (msg : String)
  deriving DecidableEq, Repr

/-- browser_controller.extract_context on the registry model: a missing
session does not raise; it RETURNS the error dictionary. -/
def extract_context (s : St) (sid : String) : CtxPayload :=
  if sid ∈ s.sessions then CtxPayload.extracted
  else CtxPayload.errorObj "Session not found or closed"

/-- HTTP classification of the POST /extract-context handler. -/
inductive CtxHttp where
  /-- 200 with status ok and the given context payload (lines 406-410). -/
  | okCtx (c : CtxPayload)
  /-- 500 if extract_context raised (lines 411-416); it never does. -/
  | err500
  deriving DecidableEq, Repr

/-- server.py POST /extract-context (lines 400-416): no session guard; the
payload extract_context returns — the error dictionary included — is
wrapped in a 200 status-ok response. -/
def extract_context_endpoint (s : St) (sid : String) : CtxHttp :=
  CtxHttp.okCtx (extract_context s sid)

/-- C7 counterexample: a non-Figma capture whose first attempt (quality 60,
10 second budget) times out retries at quality 40 under the SAME 10 second
budget — not under a second, shorter one as the claim states; the source
passes the unchanged variable timeout to both asyncio.wait_for calls
(lines 538-541 and 548-551). -/
theorem screenshot_retry_same_budget :
    take_screenshot ⟨true, false, true, false⟩ =
      { attempts := [(60, 10), (40, 10)],
        outcome := ShotOutcome.bytes 40 } :=
  rfl

/-- C7 amended: when the first screenshot attempt times out, exactly one
retry is performed at a visibly reduced encoding quality (40 versus 60)
under the SAME timeout budget; if that retry also times out the capture
fails with the timeout-classified ValueError, which the handler maps to
504 SCREENSHOT_TIMEOUT — distinct from the 410 SESSION_NOT_FOUND
response. -/
theorem screenshot_retry_classified (e : ShotEnv)
    (hlive : e.sessionLive = true) (hto : e.firstTimesOut = true) :
    (take_screenshot e).attempts =
      [(60, screenshotTimeout e.urlIsFigma),
       (40, screenshotTimeout e.urlIsFigma)] ∧
    (e.retryTimesOut = true →
      (take_screenshot e).outcome = ShotOutcome.valueErrorTimeout ∧
      screenshot_error_response (take_screenshot e).outcome =
        ShotHttp.screenshotTimeout504 ∧
      screenshot_error_response (take_screenshot e).outcome ≠
        ShotHttp.sessionNotFound410) := by
  constructor
  · simp only [take_screenshot, hlive, hto]
    norm_num
    split <;> rfl
  · intro hr
    have htr : take_screenshot e =
        { attempts := [(60, screenshotTimeout e.urlIsFigma),
            (40, screenshotTimeout e.urlIsFigma)],
          outcome := ShotOutcome.valueErrorTimeout } := by
      simp only [take_screenshot, hlive, hto, hr]
      norm_num
    rw [htr]
    exact ⟨rfl, rfl, by simp [screenshot_error_response]⟩

theorem screenshot_retry_classified_witness :
    (take_screenshot ⟨true, true, true, true⟩).attempts =
      [(60, screenshotTimeout true), (40, screenshotTimeout true)] ∧
    ((true : Bool) = true →
      (take_screenshot ⟨true, true, true, true⟩).outcome =
        ShotOutcome.valueErrorTimeout ∧
      screenshot_error_response
        (take_screenshot ⟨true, true, true, true⟩).outcome =
        ShotHttp.screenshotTimeout504 ∧
      screenshot_error_response
        (take_screenshot ⟨true, true, true, true⟩).outcome ≠
        ShotHttp.sessionNotFound410) :=
  screenshot_retry_classified ⟨true, true, true, true⟩ rfl rfl

/-- C3 counterexample: with the registry empty, POST /extract-context
against the unknown id ghost does NOT fail with a classified
SESSION_NOT_FOUND error: it returns a 200 status-ok response whose context
payload is the error dictionary — a success result, refuting the claim
that every operation on an unknown id fails with
SessionNotFound/SESSION_NOT_FOUND. -/
theorem extract_context_unknown_id_success :
    extract_context_endpoint initSt "ghost" =
      CtxHttp.okCtx (CtxPayload.errorObj "Session not found or closed") :=
  rfl

/-- C3 amended: for every session id not in the registry, POST /click and
POST /screenshot fail with the classified 410 SESSION_NOT_FOUND error, but
POST /extract-context instead returns a 200 status-ok response whose
context payload is the error dictionary Session not found or closed. -/
theorem unknown_id_responses (s : St) (sid : String) (u : Bool)
    (e : ShotEnv) (h : sid ∉ s.sessions) :
    click_endpoint_response s sid u = ClickHttp.sessionNotFound410 ∧
    screenshot_endpoint_response s sid e = ShotHttp.sessionNotFound410 ∧
    extract_context_endpoint s sid =
      CtxHttp.okCtx (CtxPayload.errorObj "Session not found or closed") := by
  have hv : is_session_valid s sid = false := by
    simp [is_session_valid, h]
  refine ⟨?_, ?_, ?_⟩
  · unfold click_endpoint_response
    rw [hv]
    rfl
  · unfold screenshot_endpoint_response
    rw [hv]
    rfl
  · unfold extract_context_endpoint extract_context
    rw [if_neg h]

theorem unknown_id_responses_witness :
    click_endpoint_response initSt "ghost" false =
      ClickHttp.sessionNotFound410 ∧
    screenshot_endpoint_response initSt "ghost" ⟨true, false, false, false⟩ =
      ShotHttp.sessionNotFound410 ∧
    extract_context_endpoint initSt "ghost" =
      CtxHttp.okCtx (CtxPayload.errorObj "Session not found or closed") :=
  unknown_id_responses initSt "ghost" false ⟨true, false, false, false⟩
    (by decide)

end Kiwi
